import Mathlib

/-!
Shallow embedding of the authentication-and-note core of
`MySecretNotes/app.py` (a small Flask note-taking application), together
with theorems settling the frozen claims about it.

Modelling conventions:
* The SQLite `notes` and `users` tables are lists of records kept in
  insertion order; `INTEGER PRIMARY KEY AUTOINCREMENT` ids are modelled as
  `length + 1` (rows are never deleted in scope).
* Python strings are Lean `String`s; `str.strip()` is modelled over the
  six ASCII whitespace characters; the regex class in
  `re.fullmatch(r'^\d{10}$', ...)` is modelled as ASCII digits.
* External randomness (`random.randrange`), the bcrypt hasher
  (`bcrypt.checkpw`) and the TOTP code check (`pyotp`) are modelled as
  parameters or possible-outcome predicates; the Flask `session` dict is a
  record of optional fields mirroring the keys the code uses.
-/

namespace MySecretNotes

/-- ASCII whitespace characters stripped by Python `str.strip()`
(space, tab, newline, carriage return, vertical tab, form feed). -/
def isPySpace (c : Char) : Bool :=
  c == ' ' || c == '\t' || c == '\n' || c == '\r' || c == '\x0b' || c == '\x0c'

/-- Strip `isPySpace` characters from both ends of a character list. -/
def pyStripList (l : List Char) : List Char :=
  ((l.dropWhile isPySpace).reverse.dropWhile isPySpace).reverse

/-- Model of Python `s.strip()` (used on the note body at app.py line 130
and on the public-id input at line 153). -/
def pyStrip (s : String) : String := ⟨pyStripList s.data⟩

/-- ASCII decimal digit. -/
def isAsciiDigit (c : Char) : Bool := '0' ≤ c && c ≤ '9'

/-- Model of `re.fullmatch(r'^\d{10}$', s)` at app.py line 156: the string
consists of exactly 10 digits. -/
def isTenDigits (s : String) : Bool :=
  s.length == 10 && s.data.all isAsciiDigit

/-- Numeric value of a digit string; models the SQLite conversion of the
bound text parameter to the INTEGER-affinity `publicID` column in
`SELECT * FROM notes WHERE publicID = ?` (app.py line 163). -/
def digitsToNat (s : String) : Nat :=
  s.data.foldl (fun a c => a * 10 + (c.toNat - '0'.toNat)) 0

/-- A row of the `notes` table (app.py lines 32-39):
`(id, assocUser, dateWritten, note, publicID)`. -/
structure Note where
  id : Nat
  assocUser : Nat
  dateWritten : String
  note : String
  publicID : Nat
deriving DecidableEq

/-- A row of the `users` table (app.py lines 25-31):
`(id, username, password, otpSecret)`; `otpSecret` is nullable. -/
structure User where
  id : Nat
  username : String
  password : String
  otpSecret : Option String
deriving DecidableEq

/-- `MAX_NOTE_LENGTH` from app.py line 125. -/
def MAX_NOTE_LENGTH : Nat := 500

/-- Next AUTOINCREMENT id for an insert-only table modelled as a list. -/
def nextNoteId (db : List Note) : Nat := db.length + 1

/-- The `add note` branch of the `notes` view (app.py lines 129-150).
`userid` is the acting authenticated session user
(`session['userid']`), `now` the `time.strftime` timestamp and `pid` the
value returned by `random.randrange(1000000000, 9999999999)` at line 143.
Returns the new notes table and the `importerror` message. -/
def addNote (userid : Nat) (now : String) (pid : Nat)
    (db : List Note) (noteinputRaw : String) : List Note × String :=
  let note_input := pyStrip noteinputRaw
  if note_input = "" then (db, "Note cannot be empty.")
  else if MAX_NOTE_LENGTH < note_input.length then
    (db, "Note is too long. Max length is 500 characters.")
  else (db ++ [⟨nextNoteId db, userid, now, note_input, pid⟩], "")

/-- The `import note` branch of the `notes` view (app.py lines 152-184).
The submitted `noteid` form value is stripped, checked against the
10-digit pattern, looked up among all notes regardless of owner
(`result[0]` takes the first row in storage order), and, when the found
body is within bounds, copied verbatim into a new row owned by the acting
session user. Returns the new notes table and the `importerror`
message. -/
def importNote (userid : Nat) (db : List Note) (noteidRaw : String) :
    List Note × String :=
  let noteid := pyStrip noteidRaw
  if ¬ (isTenDigits noteid = true) then
    (db, "Invalid Note ID format. It must be a 10-digit number.")
  else
    match db.find? (fun n => n.publicID == digitsToNat noteid) with
    | some row =>
      if MAX_NOTE_LENGTH < row.note.length then
        (db, "Imported note is too long. Max length is 500 characters.")
      else
        (db ++ [⟨nextNoteId db, userid, row.dateWritten, row.note, row.publicID⟩],
         "Note imported successfully!")
    | none => (db, "No such note with that ID!")

/-- Possible outcomes of Python `random.randrange(lo, hi)`:
all `n` with `lo ≤ n < hi` (the stop argument is excluded). -/
def randrangePossible (lo hi n : Nat) : Prop := lo ≤ n ∧ n < hi

/-- Possible values of the freshly generated note public id,
`random.randrange(1000000000, 9999999999)` at app.py line 143. -/
def possiblePublicId (n : Nat) : Prop :=
  randrangePossible 1000000000 9999999999 n

instance (n : Nat) : Decidable (possiblePublicId n) :=
  inferInstanceAs (Decidable (_ ∧ _))

/-- Password policy: at least one ASCII uppercase letter
(`re.search(r"[A-Z]", password)`, app.py line 62). -/
def hasUpper (s : String) : Bool := s.data.any (fun c => 'A' ≤ c && c ≤ 'Z')

/-- Password policy: at least one ASCII lowercase letter
(`re.search(r"[a-z]", password)`, app.py line 64). -/
def hasLower (s : String) : Bool := s.data.any (fun c => 'a' ≤ c && c ≤ 'z')

/-- Password policy: at least one ASCII digit
(`re.search(r"[0-9]", password)`, app.py line 66). -/
def hasDigitChar (s : String) : Bool := s.data.any isAsciiDigit

/-- The fixed special-character set of the password policy regex
at app.py line 68. -/
def special_characters : List Char :=
  ['!', '@', '#', '$', '%', '^', '&', '*', '(', ')', ',', '.', '?', '\"',
   ':', '\x7b', '\x7d', '|', '<', '>']

/-- Password policy: at least one character from the fixed special set
(app.py line 68). -/
def hasSpecial (s : String) : Bool :=
  s.data.any (fun c => special_characters.contains c)

/-- `validate_password` (app.py lines 59-70): five rules checked in
order, first failing rule produces its message, `none` when all pass. -/
def validate_password (password : String) : Option String :=
  if password.length < 13 then
    some "Password must be at least 13 characters"
  else if ¬ (hasUpper password = true) then
    some "Password must include at least one uppercase letter"
  else if ¬ (hasLower password = true) then
    some "Password must include at least one lowercase letter"
  else if ¬ (hasDigitChar password = true) then
    some "Password must include at least one number"
  else if ¬ (hasSpecial password = true) then
    some "Password must include at least one special character"
  else none

/-- The Flask `session` dict, restricted to the keys the code uses:
`logged_in`, `userid`, `username` (set on login) and `pending_username`,
`pending_password`, `pending_otp_secret` (set on registration submit).
An absent key is `none`; absent `logged_in` reads as `false`. -/
structure Session where
  logged_in : Bool
  userid : Option Nat
  username : Option String
  pending_username : Option String
  pending_password : Option String
  pending_otp_secret : Option String
deriving DecidableEq

/-- The empty session: the initial state, and the result of
`session.clear()`. -/
def sessionInit : Session := ⟨false, none, none, none, none, none⟩

/-- Python truthiness of an optional string form/session value:
absent or empty reads as false. -/
def truthy : Option String → Bool
  | none => false
  | some s => ¬ (s = "")

/-- Successful login session update (app.py lines 222-225):
`session.clear()` then set `logged_in`, `userid`, `username`. -/
def loginSuccess (uid : Nat) (uname : String) (_s : Session) : Session :=
  { sessionInit with logged_in := true, userid := some uid, username := some uname }

/-- The session update of a successful registration submit (app.py lines
263-265): the three pending keys are set; no other key is touched and
`session.clear()` is not called. -/
def registerSuccess (uname pwhash secret : String) (s : Session) : Session :=
  { s with pending_username := some uname, pending_password := some pwhash,
           pending_otp_secret := some secret }

/-- `logout` (app.py lines 299-304): `session.clear()`. -/
def logoutOp (_s : Session) : Session := sessionInit

/-- Outcome of the `register` POST handler: either the QR enrollment page
(pending state set) or the error page. -/
inductive RegisterResult
  | showQr
  | showErrors (usererror passworderror : String)
deriving DecidableEq

/-- The `register` POST handler (app.py lines 240-273). `hashPw` models
`hash_password` (bcrypt, external) and `secret` the value produced by
`pyotp.random_base32()`. The handler never reads the current session: on
success it sets the pending keys on whatever session is present. -/
def registerPost (users : List User) (hashPw : String → String)
    (secret : String) (username password : String) (s : Session) :
    Session × RegisterResult :=
  let passworderror := match validate_password password with
    | some m => m
    | none => ""
  let usererror :=
    if users.any (fun u => u.username == username) then
      "Please choose another username."
    else ""
  if passworderror = "" ∧ usererror = "" then
    (registerSuccess username (hashPw password) secret s, RegisterResult.showQr)
  else (s, RegisterResult.showErrors usererror passworderror)

/-- Result of a login POST: a successful attempt establishes the session
for the matched user and redirects; a failed attempt renders the login
page with an error message. -/
inductive LoginResult
  | success (uid : Nat) (uname : String)
  | failure (error : String)
deriving DecidableEq

/-- The `login` POST handler (app.py lines 203-229). `verifyPw` models
`bcrypt.checkpw` and `otpOk` models `pyotp.TOTP(secret).verify(code)`,
both external. `result[0]` is the first user row matching the username;
a user whose `otpSecret` is NULL or empty is treated as not enrolled. -/
def loginPost (verifyPw : String → String → Bool)
    (otpOk : String → String → Bool) (users : List User)
    (username password otp : String) : LoginResult :=
  match users.find? (fun u => u.username == username) with
  | some u =>
    if verifyPw u.password password then
      if ¬ (truthy u.otpSecret = true) then
        LoginResult.failure "2FA not configured for this account."
      else if ¬ (otpOk (u.otpSecret.getD "") otp = true) then
        LoginResult.failure "Invalid 2FA code."
      else LoginResult.success u.id u.username
    else LoginResult.failure "Wrong username or password!"
  | none => LoginResult.failure "Wrong username or password!"

/-- Presence check of the three pending registration fields at app.py
line 282: `if not (otp_secret and username and hashed_password)`;
Python truthiness, so an empty string counts as missing. -/
def pendingComplete (s : Session) : Bool :=
  truthy s.pending_otp_secret && truthy s.pending_username &&
    truthy s.pending_password

/-- Outcome of the `verify_2fa` POST handler. -/
inductive Verify2faResult
  | redirectRegister
  | redirectLogin
  | renderRegisterError
deriving DecidableEq

/-- The `verify_2fa` POST handler (app.py lines 275-297). `codeOk` is the
outcome of `pyotp.TOTP(pending_secret).verify(code)` (external). With an
incomplete pending state it redirects to register; on a correct code it
inserts the user row and clears the session; on a wrong code it re-renders
the page leaving the session untouched. -/
def verify_2fa (codeOk : Bool) (s : Session) (users : List User) :
    Session × List User × Verify2faResult :=
  if ¬ (pendingComplete s = true) then
    (s, users, Verify2faResult.redirectRegister)
  else if codeOk then
    (sessionInit,
     users ++ [⟨users.length + 1, s.pending_username.getD "",
                s.pending_password.getD "", s.pending_otp_secret⟩],
     Verify2faResult.redirectLogin)
  else (s, users, Verify2faResult.renderRegisterError)

/-- The `Unauthenticated` session shape: no field of any other shape is
set. -/
def isUnauthenticated (s : Session) : Prop :=
  s.logged_in = false ∧ s.userid = none ∧ s.username = none ∧
    s.pending_username = none ∧ s.pending_password = none ∧
    s.pending_otp_secret = none

/-- The `PendingRegistration` session shape: the three pending fields are
set and the authenticated fields are clear. -/
def isPendingRegistration (s : Session) : Prop :=
  s.logged_in = false ∧ s.userid = none ∧ s.username = none ∧
    s.pending_username.isSome = true ∧ s.pending_password.isSome = true ∧
    s.pending_otp_secret.isSome = true

/-- The `Authenticated` session shape: the identity fields are set and the
pending fields are clear. -/
def isAuthenticated (s : Session) : Prop :=
  s.logged_in = true ∧ s.userid.isSome = true ∧ s.username.isSome = true ∧
    s.pending_username = none ∧ s.pending_password = none ∧
    s.pending_otp_secret = none

instance (s : Session) : Decidable (isUnauthenticated s) := by
  unfold isUnauthenticated; infer_instance

instance (s : Session) : Decidable (isPendingRegistration s) := by
  unfold isPendingRegistration; infer_instance

instance (s : Session) : Decidable (isAuthenticated s) := by
  unfold isAuthenticated; infer_instance

/-! Helper lemmas. -/

theorem dropWhile_head_false {α : Type} (p : α → Bool) :
    ∀ (l : List α) (a : α) (t : List α), l.dropWhile p = a :: t → p a = false := by
  intro l
  induction l with
  | nil => intro a t h; simp [List.dropWhile] at h
  | cons b l ih =>
    intro a t h
    by_cases hb : p b = true
    · rw [List.dropWhile_cons_of_pos hb] at h
      exact ih a t h
    · rw [List.dropWhile_cons_of_neg hb] at h
      cases h
      simpa using hb

theorem dropWhile_idem {α : Type} (p : α → Bool) (l : List α) :
    (l.dropWhile p).dropWhile p = l.dropWhile p := by
  cases h : l.dropWhile p with
  | nil => simp
  | cons a t =>
    have ha := dropWhile_head_false p l a t h
    simp [List.dropWhile_cons, ha]

theorem pyStripList_head_false (l : List Char) (a : Char) (t : List Char)
    (h : pyStripList l = a :: t) : isPySpace a = false := by
  have h2 : l.dropWhile isPySpace =
      pyStripList l ++ ((l.dropWhile isPySpace).reverse.takeWhile isPySpace).reverse := by
    unfold pyStripList
    conv_lhs => rw [← List.reverse_reverse (l.dropWhile isPySpace),
      ← List.takeWhile_append_dropWhile (p := isPySpace)
        (l := (l.dropWhile isPySpace).reverse)]
    rw [List.reverse_append]
  rw [h] at h2
  exact dropWhile_head_false isPySpace l a _ h2

theorem pyStripList_dropWhile (l : List Char) :
    (pyStripList l).dropWhile isPySpace = pyStripList l := by
  cases h : pyStripList l with
  | nil => simp
  | cons a t =>
    have ha := pyStripList_head_false l a t h
    simp [List.dropWhile_cons, ha]

theorem pyStripList_idem (l : List Char) :
    pyStripList (pyStripList l) = pyStripList l := by
  show (((pyStripList l).dropWhile isPySpace).reverse.dropWhile isPySpace).reverse =
    pyStripList l
  rw [pyStripList_dropWhile]
  have hrev : (pyStripList l).reverse =
      (l.dropWhile isPySpace).reverse.dropWhile isPySpace := by
    unfold pyStripList; rw [List.reverse_reverse]
  rw [hrev, dropWhile_idem]
  rfl

theorem pyStrip_idem (s : String) : pyStrip (pyStrip s) = pyStrip s := by
  show (⟨pyStripList (pyStripList s.data)⟩ : String) = ⟨pyStripList s.data⟩
  rw [pyStripList_idem]

theorem pyStrip_all_space (s : String) (h : s.data.all isPySpace = true) :
    pyStrip s = "" := by
  have hd : s.data.dropWhile isPySpace = [] := by
    rw [List.dropWhile_eq_nil_iff]
    intro x hx
    exact List.all_eq_true.mp h x hx
  show (⟨pyStripList s.data⟩ : String) = ""
  unfold pyStripList
  rw [hd]
  rfl

theorem one_le_length_of_ne_empty (s : String) (h : s ≠ "") : 1 ≤ s.length := by
  cases s with
  | mk data =>
    cases data with
    | nil => exact absurd rfl h
    | cons a t => simp [String.length]

theorem find?_first {α : Type} (p : α → Bool) :
    ∀ (l : List α) (a : α), l.find? p = some a →
      ∃ l1 l2, l = l1 ++ a :: l2 ∧ (∀ x ∈ l1, p x = false) ∧ p a = true := by
  intro l
  induction l with
  | nil => intro a h; simp [List.find?] at h
  | cons b l ih =>
    intro a h
    by_cases hb : p b = true
    · rw [List.find?_cons_of_pos l hb] at h
      cases h
      exact ⟨[], l, rfl, by simp, hb⟩
    · rw [List.find?_cons_of_neg l hb] at h
      obtain ⟨l1, l2, rfl, h1, h2⟩ := ih a h
      refine ⟨b :: l1, l2, rfl, ?_, h2⟩
      intro x hx
      cases hx with
      | head => simpa using hb
      | tail _ hx => exact h1 x hx

/-! Branch lemmas for the two branches of the `notes` view. -/

theorem addNote_empty (userid pid : Nat) (now body : String) (db : List Note)
    (h : pyStrip body = "") :
    addNote userid now pid db body = (db, "Note cannot be empty.") := by
  simp [addNote, h]

theorem addNote_long (userid pid : Nat) (now body : String) (db : List Note)
    (h : MAX_NOTE_LENGTH < (pyStrip body).length) :
    addNote userid now pid db body =
      (db, "Note is too long. Max length is 500 characters.") := by
  have hne : ¬ pyStrip body = "" := by
    intro he
    rw [he] at h
    simp [String.length] at h
  simp [addNote, hne, h]

theorem addNote_accept (userid pid : Nat) (now body : String) (db : List Note)
    (h1 : ¬ pyStrip body = "") (h2 : (pyStrip body).length ≤ MAX_NOTE_LENGTH) :
    addNote userid now pid db body =
      (db ++ [⟨nextNoteId db, userid, now, pyStrip body, pid⟩], "") := by
  simp [addNote, h1, Nat.not_lt.mpr h2]

theorem importNote_badFormat (userid : Nat) (db : List Note) (raw : String)
    (h : ¬ isTenDigits (pyStrip raw) = true) :
    importNote userid db raw =
      (db, "Invalid Note ID format. It must be a 10-digit number.") := by
  simp [importNote, h]

theorem importNote_notFound (userid : Nat) (db : List Note) (raw : String)
    (h : isTenDigits (pyStrip raw) = true)
    (hf : db.find? (fun n => n.publicID == digitsToNat (pyStrip raw)) = none) :
    importNote userid db raw = (db, "No such note with that ID!") := by
  simp [importNote, h, hf]

theorem importNote_found (userid : Nat) (db : List Note) (raw : String) (row : Note)
    (h : isTenDigits (pyStrip raw) = true)
    (hf : db.find? (fun n => n.publicID == digitsToNat (pyStrip raw)) = some row)
    (hlen : row.note.length ≤ MAX_NOTE_LENGTH) :
    importNote userid db raw =
      (db ++ [⟨nextNoteId db, userid, row.dateWritten, row.note, row.publicID⟩],
       "Note imported successfully!") := by
  simp [importNote, h, hf, Nat.not_lt.mpr hlen]

theorem importNote_foundLong (userid : Nat) (db : List Note) (raw : String) (row : Note)
    (h : isTenDigits (pyStrip raw) = true)
    (hf : db.find? (fun n => n.publicID == digitsToNat (pyStrip raw)) = some row)
    (hlen : MAX_NOTE_LENGTH < row.note.length) :
    importNote userid db raw =
      (db, "Imported note is too long. Max length is 500 characters.") := by
  simp [importNote, h, hf, hlen]

/-! Claim theorems. -/

/-- C1 (counterexample): the submitted public-id value is stripped before
the 10-digit check, so the input made of a space followed by 10 digits is
not exactly 10 ASCII digits, yet with a matching note present the call is
not rejected: it inserts the imported copy and reports success. -/
theorem import_note_format_cex :
    isTenDigits " 1234567890" = false ∧
    importNote 7 [⟨1, 2, "1993-09-23 10:10:10", "hello my friend", 1234567890⟩]
        " 1234567890" =
      ([⟨1, 2, "1993-09-23 10:10:10", "hello my friend", 1234567890⟩,
        ⟨2, 7, "1993-09-23 10:10:10", "hello my friend", 1234567890⟩],
       "Note imported successfully!") := by
  decide

/-- C1 (amended): after stripping leading and trailing whitespace from the
submitted value, input that is not exactly 10 digits is rejected with the
format message; with a well-formed input and no matching note of any owner
the call rejects as not-found; and with a first matching note whose body
is at most 500 characters it appends exactly one new row owned by the
acting user that copies the found row written_at, body and public_id
verbatim, leaving the original rows unchanged. -/
theorem import_note_amended (userid : Nat) (db : List Note) (raw : String) :
    (¬ isTenDigits (pyStrip raw) = true →
      importNote userid db raw =
        (db, "Invalid Note ID format. It must be a 10-digit number.")) ∧
    (isTenDigits (pyStrip raw) = true →
      db.find? (fun n => n.publicID == digitsToNat (pyStrip raw)) = none →
      importNote userid db raw = (db, "No such note with that ID!")) ∧
    (∀ row, isTenDigits (pyStrip raw) = true →
      db.find? (fun n => n.publicID == digitsToNat (pyStrip raw)) = some row →
      row.note.length ≤ MAX_NOTE_LENGTH →
      importNote userid db raw =
        (db ++ [⟨nextNoteId db, userid, row.dateWritten, row.note, row.publicID⟩],
         "Note imported successfully!")) :=
  ⟨fun h => importNote_badFormat userid db raw h,
   fun h hf => importNote_notFound userid db raw h hf,
   fun row h hf hlen => importNote_found userid db raw row h hf hlen⟩

/-- C1 (witness for the amended theorem): importing the seeded note
"hello my friend" with public id 1234567890 as user 7 copies it
verbatim. -/
theorem import_note_amended_witness :
    importNote 7 [⟨1, 2, "1993-09-23 10:10:10", "hello my friend", 1234567890⟩]
        "1234567890" =
      ([⟨1, 2, "1993-09-23 10:10:10", "hello my friend", 1234567890⟩,
        ⟨2, 7, "1993-09-23 10:10:10", "hello my friend", 1234567890⟩],
       "Note imported successfully!") :=
  (import_note_amended 7
      [⟨1, 2, "1993-09-23 10:10:10", "hello my friend", 1234567890⟩]
      "1234567890").2.2
    ⟨1, 2, "1993-09-23 10:10:10", "hello my friend", 1234567890⟩
    (by decide) (by decide) (by decide)

/-- C2 (counterexample): from an authenticated session, a successful
registration submit (password policy satisfied, username free) sets the
three pending fields without clearing the authenticated fields, reaching a
state that satisfies none of the three session shapes. -/
theorem session_shapes_cex :
    isAuthenticated (loginSuccess 1 "admin" sessionInit) ∧
    (registerPost [⟨1, "admin", "h", none⟩] (fun p => p) "SECRET" "alice"
        "Str0ng!Passw0rd" (loginSuccess 1 "admin" sessionInit)).2 =
      RegisterResult.showQr ∧
    ¬ isUnauthenticated (registerPost [⟨1, "admin", "h", none⟩] (fun p => p)
        "SECRET" "alice" "Str0ng!Passw0rd" (loginSuccess 1 "admin" sessionInit)).1 ∧
    ¬ isPendingRegistration (registerPost [⟨1, "admin", "h", none⟩] (fun p => p)
        "SECRET" "alice" "Str0ng!Passw0rd" (loginSuccess 1 "admin" sessionInit)).1 ∧
    ¬ isAuthenticated (registerPost [⟨1, "admin", "h", none⟩] (fun p => p)
        "SECRET" "alice" "Str0ng!Passw0rd" (loginSuccess 1 "admin" sessionInit)).1 := by
  decide

/-- C2 (amended): successful login and logout each clear the fields of the
other shapes when entering their shape, and a registration submit from the
Unauthenticated state yields exactly the PendingRegistration shape; but
the registration submit is not restricted to the Unauthenticated state: it
preserves the authenticated fields while setting all three pending
fields, so the three shapes are not mutually exclusive over reachable
states. -/
theorem session_shapes_amended (s : Session) (uid : Nat)
    (uname ph sec : String) :
    isAuthenticated (loginSuccess uid uname s) ∧
    isUnauthenticated (logoutOp s) ∧
    (registerSuccess uname ph sec s).logged_in = s.logged_in ∧
    (registerSuccess uname ph sec s).userid = s.userid ∧
    (registerSuccess uname ph sec s).username = s.username ∧
    (registerSuccess uname ph sec s).pending_username = some uname ∧
    (registerSuccess uname ph sec s).pending_password = some ph ∧
    (registerSuccess uname ph sec s).pending_otp_secret = some sec ∧
    isPendingRegistration (registerSuccess uname ph sec sessionInit) := by
  refine ⟨?_, ?_, rfl, rfl, rfl, rfl, rfl, rfl, ?_⟩
  · exact ⟨rfl, rfl, rfl, rfl, rfl, rfl⟩
  · exact ⟨rfl, rfl, rfl, rfl, rfl, rfl⟩
  · exact ⟨rfl, rfl, rfl, rfl, rfl, rfl⟩

/-- C3 (counterexample): `random.randrange(1000000000, 9999999999)`
excludes its stop argument, so the upper endpoint 9999999999 of the
interval named by the claim is not a possible public id. -/
theorem public_id_upper_endpoint_cex : ¬ possiblePublicId 9999999999 := by
  decide

/-- C3 (amended): the freshly generated public id ranges over exactly
1000000000 ≤ n ≤ 9999999998 (the stop argument 9999999999 is excluded),
and no collision check is made: a valid body is inserted with the
generated public id for every notes table, including tables that already
contain a note with the same public id. -/
theorem public_id_range_amended :
    (∀ n, possiblePublicId n ↔ (1000000000 ≤ n ∧ n ≤ 9999999998)) ∧
    (∀ userid pid (now body : String) (db : List Note),
      ¬ pyStrip body = "" → (pyStrip body).length ≤ MAX_NOTE_LENGTH →
      (addNote userid now pid db body).1 =
        db ++ [⟨nextNoteId db, userid, now, pyStrip body, pid⟩]) := by
  constructor
  · intro n
    unfold possiblePublicId randrangePossible
    omega
  · intro userid pid now body db h1 h2
    rw [addNote_accept userid pid now body db h1 h2]

/-- C3 (witness for the amended theorem): 1000000000 and 9999999998 are
possible public ids, and a note is inserted with public id 1234567890 even
though the table already holds a note with that public id. -/
theorem public_id_range_amended_witness :
    possiblePublicId 1000000000 ∧ possiblePublicId 9999999998 ∧
    (addNote 1 "t" 1234567890 [⟨1, 1, "d", "x", 1234567890⟩] "hi").1 =
      [⟨1, 1, "d", "x", 1234567890⟩, ⟨2, 1, "t", "hi", 1234567890⟩] :=
  ⟨(public_id_range_amended.1 1000000000).mpr (by decide),
   (public_id_range_amended.1 9999999998).mpr (by decide),
   public_id_range_amended.2 1 1234567890 "t" "hi"
     [⟨1, 1, "d", "x", 1234567890⟩] (by decide) (by decide)⟩

/-- C5 (counterexample): a failed login attempt against an account whose
OTP secret is unset (as both seeded accounts are) carries the message
"2FA not configured for this account.", which is neither of the two
generic messages named by the claim and reveals that the credentials were
correct. -/
theorem login_generic_message_cex :
    loginPost (fun h p => h == p) (fun _ _ => false)
        [⟨1, "admin", "password", none⟩] "admin" "password" "123456" =
      LoginResult.failure "2FA not configured for this account." ∧
    ¬ ("2FA not configured for this account." = "Wrong username or password!") ∧
    ¬ ("2FA not configured for this account." = "Invalid 2FA code.") := by
  decide

/-- C5 (amended): a login attempt with a nonexistent username and one with
an existing username but wrong password both yield exactly
"Wrong username or password!", hence identical output; a bad OTP code on
an account with a configured OTP secret yields "Invalid 2FA code."; but an
account whose OTP secret is unset or empty yields
"2FA not configured for this account." when its credentials verify. -/
theorem login_generic_message_amended (verifyPw otpOk : String → String → Bool)
    (users : List User) (u1 u2 p1 p2 otp1 otp2 : String) :
    (users.find? (fun u => u.username == u1) = none →
      loginPost verifyPw otpOk users u1 p1 otp1 =
        LoginResult.failure "Wrong username or password!") ∧
    (∀ u, users.find? (fun x => x.username == u2) = some u →
      verifyPw u.password p2 = false →
      loginPost verifyPw otpOk users u2 p2 otp2 =
        LoginResult.failure "Wrong username or password!") ∧
    (users.find? (fun u => u.username == u1) = none →
      ∀ u, users.find? (fun x => x.username == u2) = some u →
      verifyPw u.password p2 = false →
      loginPost verifyPw otpOk users u1 p1 otp1 =
        loginPost verifyPw otpOk users u2 p2 otp2) ∧
    (∀ u, users.find? (fun x => x.username == u2) = some u →
      verifyPw u.password p2 = true → truthy u.otpSecret = true →
      otpOk (u.otpSecret.getD "") otp2 = false →
      loginPost verifyPw otpOk users u2 p2 otp2 =
        LoginResult.failure "Invalid 2FA code.") ∧
    (∀ u, users.find? (fun x => x.username == u2) = some u →
      verifyPw u.password p2 = true → truthy u.otpSecret = false →
      loginPost verifyPw otpOk users u2 p2 otp2 =
        LoginResult.failure "2FA not configured for this account.") := by
  refine ⟨?_, ?_, ?_, ?_, ?_⟩
  · intro hn
    simp [loginPost, hn]
  · intro u hf hpw
    simp [loginPost, hf, hpw]
  · intro hn u hf hpw
    simp [loginPost, hn, hf, hpw]
  · intro u hf hpw hsec hotp
    simp [loginPost, hf, hpw, hsec, hotp]
  · intro u hf hpw hsec
    simp [loginPost, hf, hpw, hsec]

/-- C5 (witness for the amended theorem): with one stored user "bob", the
attempt with the unknown username "eve" and the attempt with "bob" but a
wrong password produce the identical generic message. -/
theorem login_generic_message_amended_witness :
    loginPost (fun h p => h == p) (fun _ _ => true)
        [⟨1, "bob", "pw", some "SEC"⟩] "eve" "x" "1" =
      LoginResult.failure "Wrong username or password!" ∧
    loginPost (fun h p => h == p) (fun _ _ => true)
        [⟨1, "bob", "pw", some "SEC"⟩] "bob" "wrong" "1" =
      LoginResult.failure "Wrong username or password!" :=
  ⟨(login_generic_message_amended (fun h p => h == p) (fun _ _ => true)
      [⟨1, "bob", "pw", some "SEC"⟩] "eve" "bob" "x" "wrong" "1" "1").1
      (by decide),
   (login_generic_message_amended (fun h p => h == p) (fun _ _ => true)
      [⟨1, "bob", "pw", some "SEC"⟩] "eve" "bob" "x" "wrong" "1" "1").2.1
      ⟨1, "bob", "pw", some "SEC"⟩ (by decide) (by decide)⟩

/-- C6: validate_password checks the five rules in order, returns the
message of the first failing rule, and returns none exactly when the
password satisfies all five rules. -/
theorem validate_password_correct (p : String) :
    (validate_password p = none ↔
      (13 ≤ p.length ∧ hasUpper p = true ∧ hasLower p = true ∧
        hasDigitChar p = true ∧ hasSpecial p = true)) ∧
    (p.length < 13 →
      validate_password p = some "Password must be at least 13 characters") ∧
    (13 ≤ p.length → hasUpper p = false →
      validate_password p =
        some "Password must include at least one uppercase letter") ∧
    (13 ≤ p.length → hasUpper p = true → hasLower p = false →
      validate_password p =
        some "Password must include at least one lowercase letter") ∧
    (13 ≤ p.length → hasUpper p = true → hasLower p = true →
      hasDigitChar p = false →
      validate_password p = some "Password must include at least one number") ∧
    (13 ≤ p.length → hasUpper p = true → hasLower p = true →
      hasDigitChar p = true → hasSpecial p = false →
      validate_password p =
        some "Password must include at least one special character") := by
  unfold validate_password
  split_ifs with h1 h2 h3 h4 h5 <;> simp_all

/-- C6 (witness): the password "abc" fails the length rule first. -/
theorem validate_password_correct_witness :
    validate_password "abc" = some "Password must be at least 13 characters" :=
  (validate_password_correct "abc").2.1 (by decide)

/-- C7: verify_2fa with any of the three pending fields missing (absent or
empty) redirects to register without touching session or users; with a
complete pending state and a correct code it appends the pending user row
(with the pending secret) and clears the session to the Unauthenticated
shape, not an authenticated one; with a wrong code the session, including
all three pending fields, is left exactly unchanged. -/
theorem verify_2fa_correct (codeOk : Bool) (s : Session) (users : List User) :
    (pendingComplete s = false →
      verify_2fa codeOk s users = (s, users, Verify2faResult.redirectRegister)) ∧
    (pendingComplete s = true → codeOk = true →
      verify_2fa codeOk s users =
        (sessionInit,
         users ++ [⟨users.length + 1, s.pending_username.getD "",
                    s.pending_password.getD "", s.pending_otp_secret⟩],
         Verify2faResult.redirectLogin) ∧
      isUnauthenticated sessionInit) ∧
    (pendingComplete s = true → codeOk = false →
      verify_2fa codeOk s users =
        (s, users, Verify2faResult.renderRegisterError)) := by
  refine ⟨?_, ?_, ?_⟩
  · intro h
    simp [verify_2fa, h]
  · intro h hc
    subst hc
    exact ⟨by simp [verify_2fa, h], by decide⟩
  · intro h hc
    subst hc
    simp [verify_2fa, h]

/-- C7 (witness): with pending registration for "alice", a correct code
persists the user with the pending secret and clears the session, and a
wrong code leaves session and users unchanged. -/
theorem verify_2fa_correct_witness :
    (verify_2fa true (registerSuccess "alice" "Hash" "SEC" sessionInit) [] =
      (sessionInit, [⟨1, "alice", "Hash", some "SEC"⟩],
       Verify2faResult.redirectLogin) ∧
     isUnauthenticated sessionInit) ∧
    verify_2fa false (registerSuccess "alice" "Hash" "SEC" sessionInit) [] =
      (registerSuccess "alice" "Hash" "SEC" sessionInit, [],
       Verify2faResult.renderRegisterError) :=
  ⟨(verify_2fa_correct true (registerSuccess "alice" "Hash" "SEC" sessionInit)
      []).2.1 (by decide) rfl,
   (verify_2fa_correct false (registerSuccess "alice" "Hash" "SEC" sessionInit)
      []).2.2 (by decide) rfl⟩

/-- C8: add_note rejects an effectively empty body with the emptiness
message and an over-500-character body with the length message, in both
cases leaving the notes table unchanged; a row is inserted exactly when
the validated body has 1 to 500 characters. -/
theorem add_note_validation (userid pid : Nat) (now body : String)
    (db : List Note) :
    (pyStrip body = "" →
      addNote userid now pid db body = (db, "Note cannot be empty.")) ∧
    (MAX_NOTE_LENGTH < (pyStrip body).length →
      addNote userid now pid db body =
        (db, "Note is too long. Max length is 500 characters.")) ∧
    (1 ≤ (pyStrip body).length → (pyStrip body).length ≤ MAX_NOTE_LENGTH →
      addNote userid now pid db body =
        (db ++ [⟨nextNoteId db, userid, now, pyStrip body, pid⟩], "")) ∧
    ((addNote userid now pid db body).1 ≠ db →
      1 ≤ (pyStrip body).length ∧ (pyStrip body).length ≤ MAX_NOTE_LENGTH) := by
  refine ⟨?_, ?_, ?_, ?_⟩
  · intro h
    exact addNote_empty userid pid now body db h
  · intro h
    exact addNote_long userid pid now body db h
  · intro h1 h2
    refine addNote_accept userid pid now body db ?_ h2
    intro he
    rw [he] at h1
    simp [String.length] at h1
  · intro hne
    by_cases h1 : pyStrip body = ""
    · rw [addNote_empty userid pid now body db h1] at hne
      exact absurd rfl hne
    · by_cases h2 : MAX_NOTE_LENGTH < (pyStrip body).length
      · rw [addNote_long userid pid now body db h2] at hne
        exact absurd rfl hne
      · exact ⟨one_le_length_of_ne_empty _ h1, Nat.not_lt.mp h2⟩

set_option maxRecDepth 4096 in
/-- C8 (witness): a 501-character body is rejected with the length message
and inserts nothing, and a short body is inserted. -/
theorem add_note_validation_witness :
    addNote 1 "t" 5 [] (String.mk (List.replicate 501 'a')) =
      ([], "Note is too long. Max length is 500 characters.") ∧
    addNote 1 "t" 5 [] "hi" = ([⟨1, 1, "t", "hi", 5⟩], "") :=
  ⟨(add_note_validation 1 5 "t" (String.mk (List.replicate 501 'a')) []).2.1
     (by decide),
   (add_note_validation 1 5 "t" "hi" []).2.2.1 (by decide) (by decide)⟩

/-- C9: add_note validates and stores the stripped body: the whole branch
behaves identically on the raw and the stripped input, a body consisting
only of whitespace is rejected as empty, and every row the branch adds
carries the stripped text as its body. -/
theorem add_note_strips (userid pid : Nat) (now body : String)
    (db : List Note) :
    addNote userid now pid db body = addNote userid now pid db (pyStrip body) ∧
    (body.data.all isPySpace = true →
      addNote userid now pid db body = (db, "Note cannot be empty.")) ∧
    (∀ n, n ∈ (addNote userid now pid db body).1 →
      n ∈ db ∨ n.note = pyStrip body) := by
  refine ⟨?_, ?_, ?_⟩
  · unfold addNote
    rw [pyStrip_idem]
  · intro h
    exact addNote_empty userid pid now body db (pyStrip_all_space body h)
  · intro n hn
    by_cases h1 : pyStrip body = ""
    · rw [addNote_empty userid pid now body db h1] at hn
      exact Or.inl hn
    · by_cases h2 : MAX_NOTE_LENGTH < (pyStrip body).length
      · rw [addNote_long userid pid now body db h2] at hn
        exact Or.inl hn
      · rw [addNote_accept userid pid now body db h1 (Nat.not_lt.mp h2)] at hn
        rcases List.mem_append.mp hn with hd | hd
        · exact Or.inl hd
        · right
          rw [List.mem_singleton.mp hd]

/-- C9 (witness): a whitespace-only body is rejected as empty, and a
padded body is stored stripped. -/
theorem add_note_strips_witness :
    addNote 1 "t" 5 [] "   " = ([], "Note cannot be empty.") ∧
    addNote 1 "t" 5 [] "  hi  " = addNote 1 "t" 5 [] "hi" :=
  ⟨(add_note_strips 1 5 "t" "   " []).2.1 (by decide),
   by
     have h := (add_note_strips 1 5 "t" "  hi  " []).1
     rw [h]
     rfl⟩

/-- C10: when several stored rows carry the looked-up public id, the
matched row is the first one in storage (insertion) order: the table
decomposes as a prefix with no match, then the matched row; exactly one
new row, copying that first match, is appended. -/
theorem import_note_first_match (userid : Nat) (db : List Note)
    (raw : String) (row : Note) :
    isTenDigits (pyStrip raw) = true →
    db.find? (fun n => n.publicID == digitsToNat (pyStrip raw)) = some row →
    row.note.length ≤ MAX_NOTE_LENGTH →
    ((importNote userid db raw).1 =
       db ++ [⟨nextNoteId db, userid, row.dateWritten, row.note, row.publicID⟩] ∧
     (importNote userid db raw).1.length = db.length + 1 ∧
     ∃ l1 l2, db = l1 ++ row :: l2 ∧
       (∀ x ∈ l1, (x.publicID == digitsToNat (pyStrip raw)) = false) ∧
       row.publicID = digitsToNat (pyStrip raw)) := by
  intro h hf hlen
  have he := importNote_found userid db raw row h hf hlen
  refine ⟨by rw [he], by rw [he]; simp, ?_⟩
  obtain ⟨l1, l2, hdb, hpre, hrow⟩ :=
    find?_first (fun n => n.publicID == digitsToNat (pyStrip raw)) db row hf
  exact ⟨l1, l2, hdb, hpre, by simpa using hrow⟩

/-- C10 (witness): with two stored rows sharing public id 1234567890, the
value of the first row in insertion order is the one copied. -/
theorem import_note_first_match_witness :
    (importNote 3 [⟨1, 1, "d1", "first", 1234567890⟩,
        ⟨2, 2, "d2", "second", 1234567890⟩] "1234567890").1 =
      [⟨1, 1, "d1", "first", 1234567890⟩, ⟨2, 2, "d2", "second", 1234567890⟩] ++
        [⟨3, 3, "d1", "first", 1234567890⟩] ∧
    (importNote 3 [⟨1, 1, "d1", "first", 1234567890⟩,
        ⟨2, 2, "d2", "second", 1234567890⟩] "1234567890").1.length =
      [⟨1, 1, "d1", "first", 1234567890⟩,
        (⟨2, 2, "d2", "second", 1234567890⟩ : Note)].length + 1 ∧
    ∃ l1 l2, [⟨1, 1, "d1", "first", 1234567890⟩,
        ⟨2, 2, "d2", "second", 1234567890⟩] = l1 ++
          (⟨1, 1, "d1", "first", 1234567890⟩ : Note) :: l2 ∧
      (∀ x ∈ l1, (x.publicID == digitsToNat (pyStrip "1234567890")) = false) ∧
      (⟨1, 1, "d1", "first", 1234567890⟩ : Note).publicID =
        digitsToNat (pyStrip "1234567890") :=
  import_note_first_match 3
    [⟨1, 1, "d1", "first", 1234567890⟩, ⟨2, 2, "d2", "second", 1234567890⟩]
    "1234567890" ⟨1, 1, "d1", "first", 1234567890⟩
    (by decide) (by decide) (by decide)

end MySecretNotes
